import Mathlib

/-!
Shallow embedding of the Virtual Consumer Interview toolkit core:
the app-level workflow state machine (App component, `src/unnamed/part_000`),
the interview turn loop (ChatInterface component, `src/unnamed/part_001`),
and the collaborator-invocation layer (gemini service, concatenated into
`src/components/PersonaPreview.tsx`).

Asynchronous backend calls are modelled by passing their outcome
(`Except ErrInfo _`) as an explicit argument to each step function; timestamps
(`new Date()` / `Date.now()`) are abstracted by a `now : Nat` parameter.
-/

/-- `AppStep` enum from `src/types.ts`. -/
inductive AppStep where
  | SETUP
  | CLARIFYING
  | RESEARCHING
  | PREVIEW
  | GUIDE_INPUT
  | GUIDE_REVIEW
  | MODE_SELECTION
  | INTERVIEW
  | SUMMARY
deriving DecidableEq, Repr

/-- `InterviewMode` enum from `src/types.ts`. -/
inductive InterviewMode where
  | MANUAL
  | AUTO
deriving DecidableEq, Repr

/-- The `'text' | 'file'` discriminator of `ReferenceMaterial.type` in `src/types.ts`. -/
inductive MaterialKind where
  | text
  | file
deriving DecidableEq, Repr

/-- `ReferenceMaterial` from `src/types.ts` (`type` is renamed `kind`: keyword). -/
structure ReferenceMaterial where
  id : String
  kind : MaterialKind
  name : String
  content : String
  mimeType : Option String
deriving DecidableEq, Repr

/-- `ResearchConfig` from `src/types.ts`; optional fields become `Option`. -/
structure ResearchConfig where
  industry : String
  targetAudience : String
  clarifications : Option (List String) := none
  objectives : Option String := none
  userQuestions : Option String := none
  referenceMaterials : Option (List ReferenceMaterial) := none
deriving DecidableEq, Repr

/-- `ClarifyingQuestion` from `src/types.ts`. -/
structure ClarifyingQuestion where
  question : String
  options : List String
deriving DecidableEq, Repr

/-- `PersonaDimensionScores` from `src/types.ts`; JS numbers carried as `Int`. -/
structure PersonaDimensionScores where
  demographics : Int
  psychographics : Int
  behaviors : Int
  needs : Int
deriving DecidableEq, Repr

/-- `PersonaProfile` from `src/types.ts`. -/
structure PersonaProfile where
  rawMarkdown : String
  name : String
  summary : String
  imageUrl : Option String := none
  scores : Option PersonaDimensionScores := none
deriving DecidableEq, Repr

/-- The `'user' | 'model'` role of `ChatMessage` in `src/types.ts`. -/
inductive Role where
  | user
  | model
deriving DecidableEq, Repr

/-- `ChatMessage` from `src/types.ts`; `timestamp : Date` becomes `Nat`,
and the optional `isAiInterviewer` flag is carried with its falsy default. -/
structure ChatMessage where
  role : Role
  text : String
  timestamp : Nat
  isAiInterviewer : Bool := false
deriving DecidableEq, Repr

/-- `GroundingSource` from `src/types.ts`. -/
structure GroundingSource where
  uri : String
  title : String
deriving DecidableEq, Repr

/-- `InterviewSummary` from `src/types.ts`. -/
structure InterviewSummary where
  keyInsights : String
  painPoints : String
  wantsNeeds : String
  verdict : String
deriving DecidableEq, Repr

/-- Shape of a JS error value as tested by the code's rate-limit checks:
`error?.status`, `error?.code`, `error?.message`. -/
structure ErrInfo where
  status : Option Nat := none
  code : Option Nat := none
  message : String := ""
deriving DecidableEq, Repr

/-- Is `pre` a leading segment of `l`? (helper for the substring test). -/
def charsStartWith : List Char → List Char → Bool
  | [], _ => true
  | _ :: _, [] => false
  | a :: as, b :: bs => a == b && charsStartWith as bs

/-- Does `l` contain `needle` as a contiguous segment? (helper for the substring test). -/
def charsContain (needle : List Char) : List Char → Bool
  | [] => charsStartWith needle []
  | l@(_ :: rest) => charsStartWith needle l || charsContain needle rest

/-- Models `s.includes(sub)` (JS `String.prototype.includes`). -/
def strIncludes (s sub : String) : Bool :=
  charsContain sub.data s.data

/-- Models `s.trim()` (JS `String.prototype.trim`): strip whitespace from
both ends. -/
def strTrim (s : String) : String :=
  ⟨((s.data.dropWhile Char.isWhitespace).reverse.dropWhile Char.isWhitespace).reverse⟩

/-- The rate-limit test of `runWithRetry` in the gemini service:
`error?.status === 429 || error?.code === 429 || error?.message?.includes('429')
 || error?.message?.includes('quota')`. -/
def isRateLimitErr (e : ErrInfo) : Bool :=
  e.status == some 429 || e.code == some 429 ||
    strIncludes e.message "429" || strIncludes e.message "quota"

/-- The component-level rate-limit test in `runAiModeratorLoop`
(`src/unnamed/part_001` line 96): `e?.status === 429 || e?.message?.includes('429')`. -/
def errIncludes429 (e : ErrInfo) : Bool :=
  e.status == some 429 || strIncludes e.message "429"

/-- The whole App-level state: every `useState` hook of the App component
(`src/unnamed/part_000` lines 14-29). The external `Chat` handle is modelled
as an abstract token (`Option Unit`). -/
structure AppState where
  step : AppStep
  config : Option ResearchConfig
  clarificationQuestions : List ClarifyingQuestion
  persona : Option PersonaProfile
  sources : List GroundingSource
  discussionGuide : List String
  interviewMode : InterviewMode
  chatSession : Option Unit
  chatHistory : List ChatMessage
  summary : Option InterviewSummary
  error : Option String
  isLoadingGuide : Bool
deriving DecidableEq, Repr

/-- The initial values of the App component's `useState` hooks. -/
def initialAppState : AppState where
  step := .SETUP
  config := none
  clarificationQuestions := []
  persona := none
  sources := []
  discussionGuide := []
  interviewMode := .MANUAL
  chatSession := none
  chatHistory := []
  summary := none
  error := none
  isLoadingGuide := false

/-- `handleReset` (`src/unnamed/part_000` lines 150-161), field for field:
it sets step, config, persona, chatSession, sources, clarificationQuestions,
summary, chatHistory, discussionGuide and error — and touches nothing else. -/
def handleReset (st : AppState) : AppState :=
  { st with
    step := .SETUP
    config := none
    persona := none
    chatSession := none
    sources := []
    clarificationQuestions := []
    summary := none
    chatHistory := []
    discussionGuide := []
    error := none }

/-- A collaborator invocation recorded by an App-level step function. -/
inductive AppCall where
  | analyzeReq (industry audience : String)
  | personaGen (industry audience : String) (clarifications : List String)
      (materials : List ReferenceMaterial)
deriving DecidableEq, Repr

/-- Result of one App-level handler run: final state, the collaborator calls
it issued, and the successive values passed to `setStep`. -/
structure SubmitResult where
  state : AppState
  calls : List AppCall
  trace : List AppStep
deriving DecidableEq, Repr

/-- `handleInitialSubmit` (`src/unnamed/part_000` lines 32-56) together with
`executePersonaGeneration` (lines 76-91), which it awaits inside its `try`.
`analyzeR` is the value returned by `analyzeRequirements` (that service
catches its own failures and returns `null`, so it never throws here);
`personaR` is the outcome of `generatePersonaProfile`, whose failure is
caught by the handler's `catch`. -/
def handleInitialSubmit (st : AppState) (inputConfig : ResearchConfig)
    (analyzeR : Option (List ClarifyingQuestion))
    (personaR : Except ErrInfo (PersonaProfile × List GroundingSource)) :
    SubmitResult :=
  let st0 : AppState :=
    { st with config := some inputConfig, step := .RESEARCHING, error := none }
  let calls0 : List AppCall :=
    [.analyzeReq inputConfig.industry inputConfig.targetAudience]
  match analyzeR with
  | some (q :: qs) =>
      -- `questions && questions.length > 0`
      ⟨{ st0 with clarificationQuestions := q :: qs, step := .CLARIFYING },
        calls0, [.RESEARCHING, .CLARIFYING]⟩
  | _ =>
      -- executePersonaGeneration(industry, targetAudience, [], referenceMaterials || [])
      let calls := calls0 ++
        [.personaGen inputConfig.industry inputConfig.targetAudience []
          (inputConfig.referenceMaterials.getD [])]
      match personaR with
      | .ok (profile, fetchedSources) =>
          ⟨{ st0 with
              persona := some profile
              sources := fetchedSources
              step := .PREVIEW },
            calls, [.RESEARCHING, .PREVIEW]⟩
      | .error _ =>
          ⟨{ st0 with error := some "分析需求时出错，请重试。", step := .SETUP },
            calls, [.RESEARCHING, .SETUP]⟩

/-- The hard-coded fallback guide returned by `generateDiscussionGuide`'s own
`catch` in the gemini service. -/
def fallbackGuide : List String :=
  ["请介绍一下您自己。", "您目前使用什么产品？", "您最大的痛点是什么？"]

/-- `generateDiscussionGuide` in the gemini service, as a function of the
backend outcome: `backendR` is the parsed `questions` field of the response
(`none` when the field is absent). The service catches every failure itself
and returns the 3-question fallback — it never rethrows to its caller. -/
def generateDiscussionGuideResult
    (backendR : Except ErrInfo (Option (List String))) : List String :=
  match backendR with
  | .ok (some qs) => qs   -- res.questions
  | .ok none => []        -- res.questions || []
  | .error _ => fallbackGuide

/-- `handleGenerateGuide` (`src/unnamed/part_000` lines 99-111). Because
`generateDiscussionGuideResult` is total, the handler's own `catch`
(`setError("生成提纲失败")`) is unreachable for backend failures. -/
def handleGenerateGuide (st : AppState)
    (backendR : Except ErrInfo (Option (List String))) : AppState :=
  match st.persona, st.config with
  | some _, some _ =>
      { st with
        discussionGuide := generateDiscussionGuideResult backendR
        step := .GUIDE_REVIEW
        isLoadingGuide := false }
  | _, _ => st

/-- `handleConfirmGuide` (`src/unnamed/part_000` lines 114-117). -/
def handleConfirmGuide (st : AppState) (finalGuide : List String) : AppState :=
  { st with discussionGuide := finalGuide, step := .MODE_SELECTION }

/-- The confirm button of the GuideReview component
(`src/unnamed/part_001` line 373): `onConfirm(questions.filter(q => q.trim().length > 0))`,
wired to `handleConfirmGuide`. -/
def guideReviewConfirm (st : AppState) (questions : List String) : AppState :=
  handleConfirmGuide st (questions.filter fun q => (strTrim q).length > 0)

/-- `handleEndSession` (`src/unnamed/part_000` lines 134-148). `summaryR` is
the outcome of `generateInterviewSummary`. -/
def handleEndSession (st : AppState) (messages : List ChatMessage)
    (summaryR : Except ErrInfo InterviewSummary) : AppState :=
  match st.persona, st.config with
  | some _, some _ =>
      let st0 := { st with chatHistory := messages, step := .RESEARCHING }
      match summaryR with
      | .ok summaryData => { st0 with summary := some summaryData, step := .SUMMARY }
      | .error _ =>
          { st0 with error := some "生成总结报告失败。", step := .INTERVIEW }
  | _, _ => st

/-- The default persona scores used by `generatePersonaProfile` when the
backend response parses badly or omits `scores`. -/
def defaultScores : PersonaDimensionScores := ⟨3, 3, 3, 3⟩

/-- The parsed JSON body of a persona-generation response: both fields are
optional in what the backend may return. -/
structure PersonaGenJson where
  markdownProfile : Option String
  scores : Option PersonaDimensionScores
deriving DecidableEq, Repr

/-- The score extraction of `generatePersonaProfile` in the gemini service:
on parse failure (`parsed = none`) the fallback object carries the default
scores, and otherwise `const scores = result.scores || {3,3,3,3}` — the
backend's values pass through without any clamping. -/
def extractScores : Option PersonaGenJson → PersonaDimensionScores
  | none => defaultScores
  | some j => j.scores.getD defaultScores

/-- The spec's range condition on a score set: each dimension in [0, 5]. -/
def ScoresInRange (s : PersonaDimensionScores) : Prop :=
  0 ≤ s.demographics ∧ s.demographics ≤ 5 ∧
  0 ≤ s.psychographics ∧ s.psychographics ≤ 5 ∧
  0 ≤ s.behaviors ∧ s.behaviors ≤ 5 ∧
  0 ≤ s.needs ∧ s.needs ≤ 5

instance (s : PersonaDimensionScores) : Decidable (ScoresInRange s) := by
  unfold ScoresInRange; infer_instance

/-- The `aiModeratorStatus` state of the ChatInterface component
(`src/unnamed/part_001` line 26): `'idle' | 'thinking' | 'done'`. -/
inductive ModStatus where
  | idle
  | thinking
  | done
deriving DecidableEq, Repr

/-- The local state of the ChatInterface component
(`src/unnamed/part_001` lines 23-27), plus the `mode` prop, which the
component can change through its `onSwitchToManual` callback
(App stores it in `interviewMode`). -/
structure LoopState where
  messages : List ChatMessage
  input : String
  isTyping : Bool
  status : ModStatus
  retryTrigger : Nat
  mode : InterviewMode
deriving DecidableEq, Repr

/-- A backend invocation recorded by a turn-loop step function. -/
inductive LoopCall where
  | modDecision (history : List ChatMessage) (guide : List String)
      (profile : PersonaProfile)
  | chatSend (message : String)
deriving DecidableEq, Repr

/-- Result of one turn-loop step: the final component state, the backend
calls issued, and the milliseconds slept (`setTimeout` waits), in order. -/
structure LoopResult where
  state : LoopState
  calls : List LoopCall
  delays : List Nat
deriving DecidableEq, Repr

/-- `response.text || "..."`: the falsy-text fallback used for persona
replies (an absent text is modelled as the empty string, which JS treats
identically here). -/
def orDots (s : String) : String :=
  if s = "" then "..." else s

/-- `messages[messages.length - 1].role === 'model'` for a nonempty list. -/
def lastIsModel (msgs : List ChatMessage) : Bool :=
  match msgs.getLast? with
  | some m => decide (m.role = Role.model)
  | none => false

/-- The dependency array of the moderator-loop `useEffect`
(`src/unnamed/part_001` line 108), restricted to the component state it
reads (`guide`, `profile`, `chatSession`, `onSwitchToManual` are props,
fixed for one interview): `[messages, mode, isTyping, retryTrigger]`.
The effect body re-runs exactly when this tuple changes. -/
def loopDeps (st : LoopState) : List ChatMessage × InterviewMode × Bool × Nat :=
  (st.messages, st.mode, st.isTyping, st.retryTrigger)

/-- The moderator's turn in `runAiModeratorLoop` (`src/unnamed/part_001`
lines 68-103), reached when the trigger condition holds. `modR` is the
outcome of `getAIInterviewerNextQuestion` (already post-processed to
`Option String`: `none` is the completion sentinel); `chatR` is the outcome
of the `chatSession.sendMessage` that follows a returned question. Both
calls sit in the same `try`, so a `chatR` failure reaches the same `catch`
as a `modR` failure. -/
def moderatorTurnBody (guide : List String) (profile : PersonaProfile)
    (now : Nat) (st : LoopState) (modR : Except ErrInfo (Option String))
    (chatR : Except ErrInfo String) : LoopResult :=
  -- setAiModeratorStatus('thinking'); await 3000ms pacing delay
  match modR with
    | .ok (some nextQuestion) =>
        -- append the moderator question, go idle, send it to the persona
        let st1 : LoopState :=
          { st with
            messages := st.messages ++
              [{ role := .user
                 text := nextQuestion
                 timestamp := now
                 isAiInterviewer := true }]
            status := .idle
            isTyping := true }
        match chatR with
        | .ok answer =>
            ⟨{ st1 with
                messages := st1.messages ++
                  [{ role := .model, text := orDots answer, timestamp := now }]
                isTyping := false },
              [.modDecision st.messages guide profile, .chatSend nextQuestion],
              [3000]⟩
        | .error e =>
            -- caught by the shared catch; note isTyping is never reset here
            if errIncludes429 e then
              ⟨{ st1 with retryTrigger := st1.retryTrigger + 1 },
                [.modDecision st.messages guide profile, .chatSend nextQuestion],
                [3000, 5000]⟩
            else
              ⟨{ st1 with status := .idle },
                [.modDecision st.messages guide profile, .chatSend nextQuestion],
                [3000]⟩
    | .ok none =>
        -- completion sentinel: mark done and hand control back to the user
        ⟨{ st with status := .done, mode := .MANUAL },
          [.modDecision st.messages guide profile], [3000]⟩
    | .error e =>
        if errIncludes429 e then
          -- component-level backoff: await 5000ms, then retryTrigger + 1
          ⟨{ st with status := .thinking, retryTrigger := st.retryTrigger + 1 },
            [.modDecision st.messages guide profile], [3000, 5000]⟩
        else
          ⟨{ st with status := .idle },
            [.modDecision st.messages guide profile], [3000]⟩

/-- One run of `runAiModeratorLoop` (`src/unnamed/part_001` lines 59-105):
the guard conditions of lines 60-67, then the moderator's turn. -/
def runAiModeratorLoopStep (guide : List String) (profile : PersonaProfile)
    (now : Nat) (st : LoopState) (modR : Except ErrInfo (Option String))
    (chatR : Except ErrInfo String) : LoopResult :=
  if st.mode ≠ .AUTO then ⟨st, [], []⟩
  else if st.messages = [] then ⟨st, [], []⟩
  else if st.isTyping then ⟨st, [], []⟩
  else if lastIsModel st.messages then
    moderatorTurnBody guide profile now st modR chatR
  else ⟨st, [], []⟩

/-- `startConversation` (`src/unnamed/part_001` lines 42-54): the scripted
opening turn, run exactly once per interview (the `hasStartedRef` guard).
`r` is the outcome of the introduction `sendMessage`; on failure the catch
only logs, and the `finally` clears `isTyping`. -/
def startConversationStep (st : LoopState) (now : Nat)
    (r : Except ErrInfo String) : LoopState :=
  match r with
  | .ok t =>
      { st with
        messages := [{ role := .model
                       text := if t = "" then "你好。" else t
                       timestamp := now }]
        isTyping := false }
  | .error _ => { st with isTyping := false }

/-- `handleManualSend` (`src/unnamed/part_001` lines 111-133). `r` is the
outcome of the `sendMessage` for the user's message; on failure a
placeholder respondent message is appended instead. -/
def handleManualSendStep (st : LoopState) (now : Nat)
    (r : Except ErrInfo String) : LoopState :=
  if strTrim st.input = "" ∨ st.isTyping then st
  else
    let st0 := if st.mode = .AUTO then { st with mode := InterviewMode.MANUAL } else st
    let userMsg := strTrim st.input
    let st1 : LoopState :=
      { st0 with
        input := ""
        messages := st0.messages ++
          [{ role := .user
             text := userMsg
             timestamp := now
             isAiInterviewer := false }]
        isTyping := true }
    match r with
    | .ok t =>
        { st1 with
          messages := st1.messages ++
            [{ role := .model, text := orDots t, timestamp := now }]
          isTyping := false }
    | .error _ =>
        { st1 with
          messages := st1.messages ++
            [{ role := .model, text := "(网络波动，请重试)", timestamp := now }]
          isTyping := false }

/-- The operations of the Interview Turn Loop, each carrying the outcome of
the backend calls it performs. -/
inductive TurnOp where
  | opening (r : Except ErrInfo String)
  | moderator (modR : Except ErrInfo (Option String)) (chatR : Except ErrInfo String)
  | manualSend (r : Except ErrInfo String)

/-- Apply a turn-loop operation to the component state. -/
def applyTurnOp (guide : List String) (profile : PersonaProfile) (now : Nat) :
    TurnOp → LoopState → LoopState
  | .opening r, st => startConversationStep st now r
  | .moderator modR chatR, st =>
      (runAiModeratorLoopStep guide profile now st modR chatR).state
  | .manualSend r, st => handleManualSendStep st now r

/-- Precondition under which an operation can run: the scripted opening is
guarded (`hasStartedRef`) to run once, before any message exists. -/
def ValidOp : TurnOp → LoopState → Prop
  | .opening _, st => st.messages = []
  | .moderator _ _, _ => True
  | .manualSend _, _ => True

/-- The trigger condition of the Auto-mode moderator turn
(`src/unnamed/part_001` lines 60-67): Auto mode, a nonempty transcript,
not awaiting the persona, and the last message from the persona. -/
def ModTrigger (st : LoopState) : Prop :=
  st.mode = .AUTO ∧ st.messages ≠ [] ∧ st.isTyping = false ∧
    lastIsModel st.messages = true

instance (st : LoopState) : Decidable (ModTrigger st) := by
  unfold ModTrigger; infer_instance

/-- `getAIInterviewerNextQuestion`'s post-processing of the backend response
text (gemini service): `const text = response.text?.trim();
if (text?.includes("INTERVIEW_COMPLETE")) return null; return text || null;`. -/
def aiNextQuestionText (respText : Option String) : Option String :=
  match respText with
  | none => none
  | some s =>
      let t := strTrim s
      if strIncludes t "INTERVIEW_COMPLETE" then none
      else if t = "" then none
      else some t

/-- `runWithRetry` (gemini service): `op` gives the outcome of the wrapped
operation at each successive attempt (attempt `a` first); returns the final
outcome together with the list of backoff delays slept, in order. The
source tests `isRateLimit && retries > 0`, sleeps `delay`, then recurses
with `retries - 1` and `delay * 2`; otherwise it rethrows the error. -/
def runWithRetry {α : Type} (op : Nat → Except ErrInfo α) (a retries delay : Nat) :
    Except ErrInfo α × List Nat :=
  match op a with
  | .ok v => (.ok v, [])
  | .error e =>
      if isRateLimitErr e then
        match retries with
        | 0 => (.error e, [])
        | r + 1 =>
            let rest := runWithRetry op (a + 1) r (delay * 2)
            (rest.1, delay :: rest.2)
      else (.error e, [])

/-- The service's default arguments: `retries = 5, delay = 4000`. -/
def runWithRetryDefault {α : Type} (op : Nat → Except ErrInfo α) :
    Except ErrInfo α × List Nat :=
  runWithRetry op 0 5 4000

/-- A concrete persona used by concrete instances below. -/
def examplePersona : PersonaProfile :=
  { rawMarkdown := "# 极客小王", name := "极客小王", summary := "# 极客小王..." }

/-- A concrete research config (the spec's end-to-end scenario inputs). -/
def exampleConfig : ResearchConfig :=
  { industry := "咖啡机", targetAudience := "预算敏感型大学生" }

/-- A concrete App state sitting in the GuideInput stage. -/
def guideInputState : AppState :=
  { initialAppState with
    step := .GUIDE_INPUT
    persona := some examplePersona
    config := some exampleConfig }

/-- A concrete non-rate-limit backend failure. -/
def backendFailure : ErrInfo := { status := some 500, message := "Internal error" }

/-- A concrete rate-limit failure as the component-level check sees it. -/
def rateLimitFailure : ErrInfo := { status := some 429, message := "quota" }

/-- A concrete App state sitting in the Interview stage. -/
def interviewState : AppState :=
  { initialAppState with
    step := .INTERVIEW
    persona := some examplePersona
    config := some exampleConfig
    chatSession := some () }

/-- A concrete two-message transcript. -/
def exampleMessages : List ChatMessage :=
  [{ role := .model, text := "你好。", timestamp := 0 },
   { role := .user, text := "您目前使用什么产品？", timestamp := 1 }]

/-- A concrete interview summary. -/
def exampleSummary : InterviewSummary :=
  { keyInsights := "洞察", painPoints := "痛点", wantsNeeds := "需求", verdict := "评价" }

/-- A concrete loop state whose last message is a persona reply, in Auto mode. -/
def autoLoopState : LoopState :=
  { messages := [{ role := .model, text := "你好。", timestamp := 0 }]
    input := ""
    isTyping := false
    status := .idle
    retryTrigger := 0
    mode := .AUTO }

/-- A fresh loop state: no messages yet. -/
def emptyLoopState : LoopState :=
  { messages := []
    input := ""
    isTyping := false
    status := .idle
    retryTrigger := 0
    mode := .AUTO }

/-- A persona-generation JSON body whose scores exceed the 0-5 range. -/
def overRangeJson : PersonaGenJson :=
  { markdownProfile := some "# 极客小王", scores := some ⟨7, 3, 3, 3⟩ }

/-- An operation that always fails with a non-rate-limit error. -/
def flakyOp : Nat → Except ErrInfo Nat :=
  fun _ => Except.error { status := some 500, message := "Internal" }

/-- An operation that always fails rate-limited. -/
def quotaOp : Nat → Except ErrInfo Nat :=
  fun _ => Except.error { message := "429 quota exceeded" }

/-- If the trigger condition of the Auto-mode loop holds, the step runs the
moderator's turn. -/
theorem runAiModeratorLoopStep_trigger (guide : List String)
    (profile : PersonaProfile) (now : Nat) (st : LoopState)
    (modR : Except ErrInfo (Option String)) (chatR : Except ErrInfo String)
    (htrig : ModTrigger st) :
    runAiModeratorLoopStep guide profile now st modR chatR =
      moderatorTurnBody guide profile now st modR chatR := by
  obtain ⟨h1, h2, h3, h4⟩ := htrig
  simp [runAiModeratorLoopStep, h1, h2, h3, h4]

/-- Every branch of the moderator's turn invokes the moderator collaborator
first, with the current transcript, guide and persona. -/
theorem moderatorTurnBody_calls_head (guide : List String)
    (profile : PersonaProfile) (now : Nat) (st : LoopState)
    (modR : Except ErrInfo (Option String)) (chatR : Except ErrInfo String) :
    (moderatorTurnBody guide profile now st modR chatR).calls.head? =
      some (.modDecision st.messages guide profile) := by
  rcases modR with e | q
  · by_cases hr : errIncludes429 e <;> simp [moderatorTurnBody, hr]
  · rcases q with _ | q
    · simp [moderatorTurnBody]
    · rcases chatR with e | a
      · by_cases hr : errIncludes429 e <;> simp [moderatorTurnBody, hr]
      · simp [moderatorTurnBody]

/-- C1. The claim asserts that `reset()` restores every Session field,
including `interviewMode` back to its Manual default. `handleReset` never
calls `setInterviewMode`: resetting from a session whose mode is Auto
leaves the mode at Auto. -/
theorem reset_keeps_interview_mode_cex :
    (handleReset { initialAppState with
        step := .INTERVIEW, interviewMode := .AUTO, chatSession := some () }).interviewMode
      ≠ InterviewMode.MANUAL := by decide

/-- C1 (amended). For every session state, `handleReset` transitions the
stage to Setup, clears the error, and restores config, persona, chat
channel, grounding sources, clarifying questions, summary, transcript and
discussion guide to their initial/empty values — but it leaves
`interviewMode` unchanged rather than restoring its Manual default. -/
theorem reset_spec (st : AppState) :
    (handleReset st).step = AppStep.SETUP ∧
    (handleReset st).error = none ∧
    (handleReset st).config = none ∧
    (handleReset st).persona = none ∧
    (handleReset st).chatSession = none ∧
    (handleReset st).sources = [] ∧
    (handleReset st).clarificationQuestions = [] ∧
    (handleReset st).summary = none ∧
    (handleReset st).chatHistory = [] ∧
    (handleReset st).discussionGuide = [] ∧
    (handleReset st).interviewMode = st.interviewMode :=
  ⟨rfl, rfl, rfl, rfl, rfl, rfl, rfl, rfl, rfl, rfl, rfl⟩

/-- C7. Confirming the guide stores exactly the entries that are non-blank
after trimming, in their original order (a sublist of the edited list),
and transitions to ModeSelection; confirming `["q1", "", "  ", "q2"]`
stores exactly `["q1", "q2"]`. -/
theorem confirm_guide_filters_blanks (st : AppState) (questions : List String) :
    (guideReviewConfirm st questions).discussionGuide =
      questions.filter (fun q => (strTrim q).length > 0) ∧
    (questions.filter (fun q => (strTrim q).length > 0)).Sublist questions ∧
    (guideReviewConfirm st questions).step = AppStep.MODE_SELECTION ∧
    (guideReviewConfirm initialAppState ["q1", "", "  ", "q2"]).discussionGuide
      = ["q1", "q2"] :=
  ⟨rfl, List.filter_sublist questions, rfl, by decide⟩

/-- C3. The claim asserts that a guide-generation backend failure surfaces
an error and leaves the workflow in GuideInput. In the code the service
itself catches the failure and returns the 3-question fallback, so the
handler stores that guide and moves on to GuideReview with no error set. -/
theorem generate_guide_failure_cex :
    (handleGenerateGuide guideInputState (.error backendFailure)).step
        = AppStep.GUIDE_REVIEW ∧
    (handleGenerateGuide guideInputState (.error backendFailure)).step
        ≠ AppStep.GUIDE_INPUT ∧
    (handleGenerateGuide guideInputState (.error backendFailure)).error = none ∧
    (handleGenerateGuide guideInputState (.error backendFailure)).discussionGuide
        = fallbackGuide := by decide

/-- C3 (amended). When the guide-generation backend call fails, the
collaborator wrapper supplies the 3-question fallback guide; the handler
stores it and transitions to GuideReview without surfacing any error, and
persona and config are retained. -/
theorem generate_guide_failure_spec (st : AppState) (e : ErrInfo)
    (p : PersonaProfile) (c : ResearchConfig)
    (hp : st.persona = some p) (hc : st.config = some c) :
    (handleGenerateGuide st (.error e)).step = AppStep.GUIDE_REVIEW ∧
    (handleGenerateGuide st (.error e)).discussionGuide = fallbackGuide ∧
    (handleGenerateGuide st (.error e)).error = st.error ∧
    (handleGenerateGuide st (.error e)).persona = st.persona ∧
    (handleGenerateGuide st (.error e)).config = st.config := by
  simp [handleGenerateGuide, hp, hc, generateDiscussionGuideResult]

/-- C3 witness: the amended statement at a concrete GuideInput state. -/
theorem generate_guide_failure_spec_witness :
    (handleGenerateGuide guideInputState (.error backendFailure)).step
        = AppStep.GUIDE_REVIEW ∧
    (handleGenerateGuide guideInputState (.error backendFailure)).discussionGuide
        = fallbackGuide ∧
    (handleGenerateGuide guideInputState (.error backendFailure)).error
        = guideInputState.error ∧
    (handleGenerateGuide guideInputState (.error backendFailure)).persona
        = guideInputState.persona ∧
    (handleGenerateGuide guideInputState (.error backendFailure)).config
        = guideInputState.config :=
  generate_guide_failure_spec guideInputState backendFailure examplePersona
    exampleConfig rfl rfl

/-- C4. Ending the interview stores exactly the transcript passed in; on
summary success the stage becomes Summary with the summary stored, and on
summary failure an error is surfaced and the stage returns to Interview
with that same transcript intact. -/
theorem end_session_spec (st : AppState) (messages : List ChatMessage)
    (summaryR : Except ErrInfo InterviewSummary)
    (p : PersonaProfile) (c : ResearchConfig)
    (_hstep : st.step = AppStep.INTERVIEW)
    (hp : st.persona = some p) (hc : st.config = some c) :
    (handleEndSession st messages summaryR).chatHistory = messages ∧
    (∀ s, summaryR = .ok s →
      (handleEndSession st messages summaryR).step = AppStep.SUMMARY ∧
      (handleEndSession st messages summaryR).summary = some s) ∧
    (∀ e, summaryR = .error e →
      (handleEndSession st messages summaryR).step = AppStep.INTERVIEW ∧
      (handleEndSession st messages summaryR).chatHistory = messages ∧
      (handleEndSession st messages summaryR).error = some "生成总结报告失败。") := by
  rcases summaryR with e | s <;> simp [handleEndSession, hp, hc]

/-- C4 witness: the statement at a concrete Interview state, on both a
successful and a failing summary generation. -/
theorem end_session_spec_witness :
    (handleEndSession interviewState exampleMessages (.ok exampleSummary)).chatHistory
        = exampleMessages ∧
    (handleEndSession interviewState exampleMessages (.ok exampleSummary)).step
        = AppStep.SUMMARY ∧
    (handleEndSession interviewState exampleMessages (.ok exampleSummary)).summary
        = some exampleSummary ∧
    (handleEndSession interviewState exampleMessages (.error backendFailure)).step
        = AppStep.INTERVIEW ∧
    (handleEndSession interviewState exampleMessages (.error backendFailure)).chatHistory
        = exampleMessages :=
  ⟨(end_session_spec interviewState exampleMessages (.ok exampleSummary)
      examplePersona exampleConfig rfl rfl rfl).1,
   ((end_session_spec interviewState exampleMessages (.ok exampleSummary)
      examplePersona exampleConfig rfl rfl rfl).2.1 exampleSummary rfl).1,
   ((end_session_spec interviewState exampleMessages (.ok exampleSummary)
      examplePersona exampleConfig rfl rfl rfl).2.1 exampleSummary rfl).2,
   ((end_session_spec interviewState exampleMessages (.error backendFailure)
      examplePersona exampleConfig rfl rfl rfl).2.2 backendFailure rfl).1,
   ((end_session_spec interviewState exampleMessages (.error backendFailure)
      examplePersona exampleConfig rfl rfl rfl).2.2 backendFailure rfl).2.1⟩

/-- C8. The claim asserts every generated persona's four scores are
integers in [0, 5] regardless of the backend response. The extraction
passes backend values through without clamping: a response scoring a
dimension 7 yields a profile score of 7. -/
theorem persona_scores_range_cex :
    (extractScores (some overRangeJson)).demographics = 7 ∧
    ¬ ScoresInRange (extractScores (some overRangeJson)) := by decide

/-- C8 (amended). The scores are the backend's own values whenever the
parsed response carries a `scores` object, with no clamping; only when
parsing fails or `scores` is absent do all four default to 3, which does
lie in [0, 5]. -/
theorem persona_scores_spec (m : Option String) (s : PersonaDimensionScores) :
    extractScores none = defaultScores ∧
    extractScores (some ⟨m, none⟩) = defaultScores ∧
    extractScores (some ⟨m, some s⟩) = s ∧
    ScoresInRange defaultScores :=
  ⟨rfl, rfl, rfl, by decide⟩

/-- C6. When requirement analysis yields zero clarifying questions (the
service returns `null`, or an empty list), persona generation is invoked
exactly once, with an empty clarifications list, and the stage passes
Setup → Researching → Preview without ever entering Clarifying. -/
theorem initial_submit_zero_questions (st : AppState) (cfg : ResearchConfig)
    (analyzeR : Option (List ClarifyingQuestion))
    (profile : PersonaProfile) (srcs : List GroundingSource)
    (hstep : st.step = AppStep.SETUP)
    (hzero : analyzeR = none ∨ analyzeR = some []) :
    (handleInitialSubmit st cfg analyzeR (.ok (profile, srcs))).calls =
      [AppCall.analyzeReq cfg.industry cfg.targetAudience,
       AppCall.personaGen cfg.industry cfg.targetAudience []
         (cfg.referenceMaterials.getD [])] ∧
    st.step :: (handleInitialSubmit st cfg analyzeR (.ok (profile, srcs))).trace =
      [AppStep.SETUP, AppStep.RESEARCHING, AppStep.PREVIEW] ∧
    AppStep.CLARIFYING ∉
      st.step :: (handleInitialSubmit st cfg analyzeR (.ok (profile, srcs))).trace ∧
    (handleInitialSubmit st cfg analyzeR (.ok (profile, srcs))).state.step
      = AppStep.PREVIEW := by
  rcases hzero with h | h <;> subst h <;> simp [handleInitialSubmit, hstep]

/-- C6 witness: the statement at the spec's end-to-end scenario inputs. -/
theorem initial_submit_zero_questions_witness :
    (handleInitialSubmit initialAppState exampleConfig none
        (.ok (examplePersona, []))).calls =
      [AppCall.analyzeReq "咖啡机" "预算敏感型大学生",
       AppCall.personaGen "咖啡机" "预算敏感型大学生" [] []] ∧
    (handleInitialSubmit initialAppState exampleConfig none
        (.ok (examplePersona, []))).state.step = AppStep.PREVIEW :=
  ⟨(initial_submit_zero_questions initialAppState exampleConfig none
      examplePersona [] rfl (Or.inl rfl)).1,
   (initial_submit_zero_questions initialAppState exampleConfig none
      examplePersona [] rfl (Or.inl rfl)).2.2.2⟩

/-- Every branch of the moderator's turn only ever appends to the
transcript. -/
theorem moderatorTurnBody_messages (guide : List String) (profile : PersonaProfile)
    (now : Nat) (st : LoopState) (modR : Except ErrInfo (Option String))
    (chatR : Except ErrInfo String) :
    st.messages <+: (moderatorTurnBody guide profile now st modR chatR).state.messages := by
  rcases modR with e | q
  · by_cases hr : errIncludes429 e <;> simp [moderatorTurnBody, hr]
  · rcases q with _ | q
    · simp [moderatorTurnBody]
    · rcases chatR with e | a
      · by_cases hr : errIncludes429 e <;> simp [moderatorTurnBody, hr]
      · simp [moderatorTurnBody]

/-- C5. For every interview state and every operation of the Interview Turn
Loop — the scripted opening turn (valid only before any message exists, as
the `hasStartedRef` guard ensures), an automated moderator turn, a manual
user send, and the placeholder substitution on a failed chat turn (the
error branches of the latter two) — the prior transcript is a prefix of
the resulting one: messages are only appended, never edited or removed. -/
theorem transcript_append_only (guide : List String) (profile : PersonaProfile)
    (now : Nat) (op : TurnOp) (st : LoopState) (hv : ValidOp op st) :
    st.messages <+: (applyTurnOp guide profile now op st).messages := by
  cases op with
  | opening r =>
      have h : st.messages = [] := hv
      rcases r with e | t
      · simp [applyTurnOp, startConversationStep]
      · rw [h]
        exact List.nil_prefix
  | moderator modR chatR =>
      show st.messages <+:
        (runAiModeratorLoopStep guide profile now st modR chatR).state.messages
      unfold runAiModeratorLoopStep
      split
      · exact List.prefix_refl _
      · split
        · exact List.prefix_refl _
        · split
          · exact List.prefix_refl _
          · split
            · exact moderatorTurnBody_messages guide profile now st modR chatR
            · exact List.prefix_refl _
  | manualSend r =>
      show st.messages <+: (handleManualSendStep st now r).messages
      unfold handleManualSendStep
      split
      · exact List.prefix_refl _
      · rcases r with e | t <;>
        · by_cases hm : st.mode = InterviewMode.AUTO <;> simp [hm]

/-- C5 witness: the scripted opening turn on a fresh interview state. -/
theorem transcript_append_only_witness :
    ValidOp (TurnOp.opening (.ok "你好")) emptyLoopState ∧
    emptyLoopState.messages <+:
      (applyTurnOp [] examplePersona 0 (.opening (.ok "你好")) emptyLoopState).messages :=
  ⟨rfl, transcript_append_only [] examplePersona 0 (.opening (.ok "你好"))
    emptyLoopState rfl⟩

/-- C2. On a failed moderator turn in Auto mode: a rate-limit error
(status 429) leaves the transcript untouched, sleeps the 3000ms pacing
delay plus the fixed 5000ms cooldown, bumps `retryTrigger` (which re-fires
the effect), and the re-fired turn issues the moderator call with the same
transcript, guide and persona; any other error resets the moderator status
to idle without ending the session or touching the transcript, and leaves
the effect's dependency tuple unchanged, so no further automated turn
fires until the transcript changes again. -/
theorem auto_loop_error_spec (guide : List String) (profile : PersonaProfile)
    (now now2 : Nat) (st : LoopState) (e : ErrInfo)
    (chatR chatR2 : Except ErrInfo String) (modR2 : Except ErrInfo (Option String))
    (htrig : ModTrigger st) :
    (errIncludes429 e = true →
      (runAiModeratorLoopStep guide profile now st (.error e) chatR).state.messages
          = st.messages ∧
      (runAiModeratorLoopStep guide profile now st (.error e) chatR).delays
          = [3000, 5000] ∧
      (runAiModeratorLoopStep guide profile now st (.error e) chatR).state.mode
          = st.mode ∧
      (runAiModeratorLoopStep guide profile now st (.error e) chatR).state.retryTrigger
          = st.retryTrigger + 1 ∧
      (runAiModeratorLoopStep guide profile now2
          (runAiModeratorLoopStep guide profile now st (.error e) chatR).state
          modR2 chatR2).calls.head?
        = some (.modDecision st.messages guide profile)) ∧
    (errIncludes429 e = false →
      (runAiModeratorLoopStep guide profile now st (.error e) chatR).state.status
          = ModStatus.idle ∧
      (runAiModeratorLoopStep guide profile now st (.error e) chatR).state.messages
          = st.messages ∧
      (runAiModeratorLoopStep guide profile now st (.error e) chatR).state.mode
          = st.mode ∧
      loopDeps (runAiModeratorLoopStep guide profile now st (.error e) chatR).state
          = loopDeps st) := by
  have hstep := runAiModeratorLoopStep_trigger guide profile now st (.error e) chatR htrig
  obtain ⟨h1, h2, h3, h4⟩ := htrig
  constructor
  · intro herr
    have hbody : moderatorTurnBody guide profile now st (Except.error e) chatR =
        ⟨{ st with status := .thinking, retryTrigger := st.retryTrigger + 1 },
         [.modDecision st.messages guide profile], [3000, 5000]⟩ := by
      simp [moderatorTurnBody, herr]
    rw [hstep, hbody]
    refine ⟨rfl, rfl, rfl, rfl, ?_⟩
    have htrig2 : ModTrigger
        { st with status := ModStatus.thinking, retryTrigger := st.retryTrigger + 1 } :=
      ⟨h1, h2, h3, h4⟩
    rw [runAiModeratorLoopStep_trigger _ _ _ _ _ _ htrig2]
    exact moderatorTurnBody_calls_head guide profile now2 _ modR2 chatR2
  · intro herr
    have hbody : moderatorTurnBody guide profile now st (Except.error e) chatR =
        ⟨{ st with status := .idle }, [.modDecision st.messages guide profile], [3000]⟩ := by
      simp [moderatorTurnBody, herr]
    rw [hstep, hbody]
    exact ⟨rfl, rfl, rfl, rfl⟩

/-- C2 witness: a concrete Auto-mode state hit by a concrete 429 error and
by a concrete non-rate-limit error. -/
theorem auto_loop_error_spec_witness :
    (runAiModeratorLoopStep [] examplePersona 1 autoLoopState
        (.error rateLimitFailure) (.ok "x")).delays = [3000, 5000] ∧
    (runAiModeratorLoopStep [] examplePersona 1 autoLoopState
        (.error rateLimitFailure) (.ok "x")).state.retryTrigger = 1 ∧
    (runAiModeratorLoopStep [] examplePersona 1 autoLoopState
        (.error backendFailure) (.ok "x")).state.status = ModStatus.idle ∧
    loopDeps (runAiModeratorLoopStep [] examplePersona 1 autoLoopState
        (.error backendFailure) (.ok "x")).state = loopDeps autoLoopState :=
  ⟨((auto_loop_error_spec [] examplePersona 1 0 autoLoopState rateLimitFailure
      (.ok "x") (.ok "x") (.ok none) (by decide)).1 (by decide)).2.1,
   ((auto_loop_error_spec [] examplePersona 1 0 autoLoopState rateLimitFailure
      (.ok "x") (.ok "x") (.ok none) (by decide)).1 (by decide)).2.2.2.1,
   ((auto_loop_error_spec [] examplePersona 1 0 autoLoopState backendFailure
      (.ok "x") (.ok "x") (.ok none) (by decide)).2 (by decide)).1,
   ((auto_loop_error_spec [] examplePersona 1 0 autoLoopState backendFailure
      (.ok "x") (.ok "x") (.ok none) (by decide)).2 (by decide)).2.2.2⟩

/-- C10. If the moderator backend's response text is empty, whitespace-only
or absent, `getAIInterviewerNextQuestion` returns the completion sentinel
(`null`), and the Auto-mode loop behaves exactly as for an explicit
`"[INTERVIEW_COMPLETE]"` response: moderator status becomes done, the mode
downgrades to Manual, and no message is appended. -/
theorem empty_moderator_response_completes (resp : Option String)
    (guide : List String) (profile : PersonaProfile) (now : Nat) (st : LoopState)
    (chatR chatR2 : Except ErrInfo String)
    (hempty : resp = none ∨ ∃ s, resp = some s ∧ strTrim s = "")
    (htrig : ModTrigger st) :
    aiNextQuestionText resp = none ∧
    aiNextQuestionText (some "[INTERVIEW_COMPLETE]") = none ∧
    runAiModeratorLoopStep guide profile now st (.ok (aiNextQuestionText resp)) chatR =
      runAiModeratorLoopStep guide profile now st
        (.ok (aiNextQuestionText (some "[INTERVIEW_COMPLETE]"))) chatR2 ∧
    (runAiModeratorLoopStep guide profile now st
        (.ok (aiNextQuestionText resp)) chatR).state.status = ModStatus.done ∧
    (runAiModeratorLoopStep guide profile now st
        (.ok (aiNextQuestionText resp)) chatR).state.mode = InterviewMode.MANUAL ∧
    (runAiModeratorLoopStep guide profile now st
        (.ok (aiNextQuestionText resp)) chatR).state.messages = st.messages := by
  have hinc : strIncludes "" "INTERVIEW_COMPLETE" = false := by decide
  have hnone : aiNextQuestionText resp = none := by
    rcases hempty with h | ⟨s, hs, ht⟩
    · rw [h]; rfl
    · rw [hs]; simp [aiNextQuestionText, ht, hinc]
  have hsent : aiNextQuestionText (some "[INTERVIEW_COMPLETE]") = none := by decide
  rw [hnone, hsent]
  rw [runAiModeratorLoopStep_trigger guide profile now st (.ok none) chatR htrig,
      runAiModeratorLoopStep_trigger guide profile now st (.ok none) chatR2 htrig]
  refine ⟨rfl, rfl, rfl, ?_, ?_, ?_⟩ <;> simp [moderatorTurnBody]

/-- C10 witness: a whitespace-only backend response at a concrete Auto-mode
state. -/
theorem empty_moderator_response_completes_witness :
    (runAiModeratorLoopStep ["q"] examplePersona 1 autoLoopState
        (.ok (aiNextQuestionText (some "  "))) (.ok "x")).state.status
      = ModStatus.done ∧
    (runAiModeratorLoopStep ["q"] examplePersona 1 autoLoopState
        (.ok (aiNextQuestionText (some "  "))) (.ok "x")).state.mode
      = InterviewMode.MANUAL ∧
    (runAiModeratorLoopStep ["q"] examplePersona 1 autoLoopState
        (.ok (aiNextQuestionText (some "  "))) (.ok "x")).state.messages
      = autoLoopState.messages :=
  ⟨(empty_moderator_response_completes (some "  ") ["q"] examplePersona 1
      autoLoopState (.ok "x") (.ok "x") (Or.inr ⟨"  ", rfl, by decide⟩)
      (by decide)).2.2.2.1,
   (empty_moderator_response_completes (some "  ") ["q"] examplePersona 1
      autoLoopState (.ok "x") (.ok "x") (Or.inr ⟨"  ", rfl, by decide⟩)
      (by decide)).2.2.2.2.1,
   (empty_moderator_response_completes (some "  ") ["q"] examplePersona 1
      autoLoopState (.ok "x") (.ok "x") (Or.inr ⟨"  ", rfl, by decide⟩)
      (by decide)).2.2.2.2.2⟩

/-- One-step unfolding of `runWithRetry`: a successful attempt returns
immediately. -/
theorem runWithRetry_ok {α : Type} (op : Nat → Except ErrInfo α) (a n d : Nat)
    (v : α) (h : op a = .ok v) : runWithRetry op a n d = (.ok v, []) := by
  rw [runWithRetry.eq_def, h]

/-- One-step unfolding of `runWithRetry`: a non-rate-limit error is
rethrown at once, whatever the remaining budget. -/
theorem runWithRetry_err_noRate {α : Type} (op : Nat → Except ErrInfo α)
    (a n d : Nat) (e : ErrInfo) (h : op a = .error e)
    (hr : isRateLimitErr e = false) :
    runWithRetry op a n d = (.error e, []) := by
  rw [runWithRetry.eq_def, h]
  simp [hr]

/-- One-step unfolding of `runWithRetry`: a rate-limit error with no budget
left is rethrown. -/
theorem runWithRetry_err_rate_zero {α : Type} (op : Nat → Except ErrInfo α)
    (a d : Nat) (e : ErrInfo) (h : op a = .error e)
    (hr : isRateLimitErr e = true) :
    runWithRetry op a 0 d = (.error e, []) := by
  rw [runWithRetry.eq_def, h]
  simp [hr]

/-- One-step unfolding of `runWithRetry`: a rate-limit error with budget
left sleeps `d` and retries with one fewer retry and doubled delay. -/
theorem runWithRetry_err_rate_succ {α : Type} (op : Nat → Except ErrInfo α)
    (a r d : Nat) (e : ErrInfo) (h : op a = .error e)
    (hr : isRateLimitErr e = true) :
    runWithRetry op a (r + 1) d =
      ((runWithRetry op (a + 1) r (d * 2)).1,
        d :: (runWithRetry op (a + 1) r (d * 2)).2) := by
  rw [runWithRetry.eq_def, h]
  simp [hr]

/-- The backoff delays slept by `runWithRetry` form a geometric sequence
`d, 2d, 4d, ...` of length at most the retry budget. -/
theorem runWithRetry_delays {α : Type} (op : Nat → Except ErrInfo α) :
    ∀ (n a d : Nat), ∃ k, k ≤ n ∧
      (runWithRetry op a n d).2 = (List.range k).map (fun i => d * 2 ^ i)
  | 0, a, d => by
      cases h : op a with
      | ok v => exact ⟨0, le_rfl, by rw [runWithRetry_ok op a 0 d v h]; simp⟩
      | error e =>
          refine ⟨0, le_rfl, ?_⟩
          by_cases hr : isRateLimitErr e
          · rw [runWithRetry_err_rate_zero op a d e h hr]; simp
          · rw [runWithRetry_err_noRate op a 0 d e h (by simpa using hr)]; simp
  | (n + 1), a, d => by
      cases h : op a with
      | ok v => exact ⟨0, Nat.zero_le _, by rw [runWithRetry_ok op a (n+1) d v h]; simp⟩
      | error e =>
          by_cases hr : isRateLimitErr e
          · obtain ⟨k, hk, hsnd⟩ := runWithRetry_delays op n (a + 1) (d * 2)
            refine ⟨k + 1, by omega, ?_⟩
            rw [runWithRetry_err_rate_succ op a n d e h hr]
            simp only [hsnd]
            rw [List.range_succ_eq_map, List.map_cons, List.map_map]
            refine congrArg₂ _ (by ring) ?_
            refine List.map_congr_left ?_
            intro i _
            simp [Function.comp]
            ring
          · exact ⟨0, Nat.zero_le _,
              by rw [runWithRetry_err_noRate op a (n+1) d e h (by simpa using hr)]; simp⟩

/-- If every attempt fails rate-limited, `runWithRetry` propagates the
final attempt's error unchanged. -/
theorem runWithRetry_exhaust {α : Type} (op : Nat → Except ErrInfo α) :
    ∀ (n a d : Nat),
      (∀ i, i ≤ n → ∃ e, op (a + i) = .error e ∧ isRateLimitErr e = true) →
      ∀ e, op (a + n) = .error e → (runWithRetry op a n d).1 = .error e
  | 0, a, d => by
      intro _ e he
      rw [Nat.add_zero] at he
      by_cases hr : isRateLimitErr e
      · rw [runWithRetry_err_rate_zero op a d e he hr]
      · rw [runWithRetry_err_noRate op a 0 d e he (by simpa using hr)]
  | (n + 1), a, d => by
      intro h e he
      obtain ⟨e0, he0, hr0⟩ := h 0 (Nat.zero_le _)
      rw [Nat.add_zero] at he0
      have ih := runWithRetry_exhaust op n (a + 1) (d * 2)
        (fun i hi => by
          obtain ⟨e', he', hr'⟩ := h (i + 1) (by omega)
          refine ⟨e', ?_, hr'⟩
          have hidx : a + (i + 1) = a + 1 + i := by omega
          rwa [hidx] at he')
        e (by
          have hidx : a + (n + 1) = a + 1 + n := by omega
          rwa [hidx] at he)
      rw [runWithRetry_err_rate_succ op a n d e0 he0 hr0]
      exact ih

/-- `runWithRetry` always terminates in some attempt's success or some
attempt's error. -/
theorem runWithRetry_result {α : Type} (op : Nat → Except ErrInfo α) :
    ∀ (n a d : Nat),
      (∃ i v, (runWithRetry op a n d).1 = .ok v ∧ op i = .ok v) ∨
      (∃ i e, (runWithRetry op a n d).1 = .error e ∧ op i = .error e)
  | 0, a, d => by
      cases h : op a with
      | ok v => exact Or.inl ⟨a, v, by rw [runWithRetry_ok op a 0 d v h], h⟩
      | error e =>
          refine Or.inr ⟨a, e, ?_, h⟩
          by_cases hr : isRateLimitErr e
          · rw [runWithRetry_err_rate_zero op a d e h hr]
          · rw [runWithRetry_err_noRate op a 0 d e h (by simpa using hr)]
  | (n + 1), a, d => by
      cases h : op a with
      | ok v => exact Or.inl ⟨a, v, by rw [runWithRetry_ok op a (n+1) d v h], h⟩
      | error e =>
          by_cases hr : isRateLimitErr e
          · have ih := runWithRetry_result op n (a + 1) (d * 2)
            rcases ih with ⟨i, v, hfst, hop⟩ | ⟨i, e', hfst, hop⟩
            · exact Or.inl ⟨i, v,
                by rw [runWithRetry_err_rate_succ op a n d e h hr]; exact hfst, hop⟩
            · exact Or.inr ⟨i, e',
                by rw [runWithRetry_err_rate_succ op a n d e h hr]; exact hfst, hop⟩
          · exact Or.inr ⟨a, e,
              by rw [runWithRetry_err_noRate op a (n+1) d e h (by simpa using hr)], h⟩

/-- Indexing into a mapped range. -/
theorem rangeMap_getD (f : Nat → Nat) (k i : Nat) (hi : i < k) :
    ((List.range k).map f).getD i 0 = f i := by
  rw [List.getD_eq_getElem?_getD]
  simp [List.getElem?_map, List.getElem?_range hi]

/-- C9. `runWithRetry`: a non-rate-limit error is rethrown immediately,
unchanged and without sleeping; a rate-limit error with budget remaining
sleeps the current delay and re-runs the operation with one fewer retry
and a doubled delay, so successive backoff delays double and number at
most the fixed retry count; when every attempt fails rate-limited the
final attempt's error propagates unchanged; and the helper always
terminates in some attempt's result or error. -/
theorem run_with_retry_spec {α : Type} (op : Nat → Except ErrInfo α)
    (retries delay : Nat) :
    (∀ a e, op a = Except.error e → isRateLimitErr e = false →
      runWithRetry op a retries delay = (Except.error e, [])) ∧
    (∀ a e r, retries = r + 1 → op a = Except.error e → isRateLimitErr e = true →
      runWithRetry op a retries delay =
        ((runWithRetry op (a + 1) r (delay * 2)).1,
          delay :: (runWithRetry op (a + 1) r (delay * 2)).2)) ∧
    ((runWithRetry op 0 retries delay).2.length ≤ retries ∧
      ∀ i, i + 1 < (runWithRetry op 0 retries delay).2.length →
        (runWithRetry op 0 retries delay).2.getD (i + 1) 0 =
          2 * (runWithRetry op 0 retries delay).2.getD i 0) ∧
    ((∀ i, i ≤ retries → ∃ e, op i = Except.error e ∧ isRateLimitErr e = true) →
      ∀ e, op retries = Except.error e →
        (runWithRetry op 0 retries delay).1 = Except.error e) ∧
    ((∃ i v, (runWithRetry op 0 retries delay).1 = Except.ok v ∧ op i = Except.ok v) ∨
     (∃ i e, (runWithRetry op 0 retries delay).1 = Except.error e ∧
        op i = Except.error e)) := by
  refine ⟨?_, ?_, ?_, ?_, ?_⟩
  · intro a e h hr
    exact runWithRetry_err_noRate op a retries delay e h hr
  · intro a e r hret h hr
    subst hret
    exact runWithRetry_err_rate_succ op a r delay e h hr
  · obtain ⟨k, hk, hsnd⟩ := runWithRetry_delays op retries 0 delay
    constructor
    · rw [hsnd]; simpa using hk
    · intro i hi
      rw [hsnd] at hi ⊢
      have hlen : ((List.range k).map fun j => delay * 2 ^ j).length = k := by simp
      rw [hlen] at hi
      rw [rangeMap_getD _ _ _ hi, rangeMap_getD _ _ _ (by omega)]
      ring
  · intro h e he
    exact runWithRetry_exhaust op retries 0 delay
      (fun i hi => by simpa using h i hi) e (by simpa using he)
  · exact runWithRetry_result op retries 0 delay

/-- C9 witness: the service's default budget (5 retries, 4000ms) on a
permanent non-rate-limit failure (rethrown at once) and on a permanent
quota failure (final error propagated unchanged after exhaustion). -/
theorem run_with_retry_spec_witness :
    runWithRetry flakyOp 0 5 4000 =
      (Except.error { status := some 500, code := none, message := "Internal" }, []) ∧
    (runWithRetry quotaOp 0 5 4000).1 =
      Except.error { status := none, code := none, message := "429 quota exceeded" } :=
  ⟨(run_with_retry_spec flakyOp 5 4000).1 0
      { status := some 500, code := none, message := "Internal" } rfl (by decide),
   (run_with_retry_spec quotaOp 5 4000).2.2.2.1
      (fun i _ => ⟨{ status := none, code := none, message := "429 quota exceeded" },
        rfl, by decide⟩)
      { status := none, code := none, message := "429 quota exceeded" } rfl⟩
